import Mathlib

/-!
Verification of the analytics/session subsystem of a portfolio web application.

The Python sources are shallowly embedded as executable Lean definitions:

* `storage.py` (SQLite tables) — tables become lists of row structures; SQL
  statements become list operations.  Timestamps are produced by
  `datetime.utcnow().isoformat()` and compared as ISO-8601 strings, which for
  such strings agrees with chronological order; we model them as integer
  seconds (`Time := Int`).  The wall clock is passed explicitly.
* `parser.py` — the regular expressions used there are either literal
  substrings or literals followed by digit groups; they are embedded as
  character-list scanners with the same match semantics.
* `middleware.py` — the request, the inner response and the outcome of the
  external geolocation call are explicit parameters; exceptions are modelled
  with `Except`.  Python keyword-argument binding for the one dynamic call is
  modelled by name, so that a `TypeError` from a mismatched call is visible.
-/

namespace Neverdecel

/-! ## storage.py : table rows -/

/-- One row of the `pageviews` table. -/
structure PageviewRow where
  timestamp : Int
  path : String
  referrer : Option String
  referrer_domain : Option String
  visitor_id : String
  country : Option String
  city : Option String
  user_agent : Option String
  browser : Option String
  browser_version : Option String
  os : Option String
  device_type : Option String
  is_bot : Bool
  response_time_ms : Option Int
  status_code : Option Int
  utm_source : Option String
  utm_medium : Option String
  utm_campaign : Option String
  utm_content : Option String
  utm_term : Option String
deriving DecidableEq

/-- One row of the `sessions` table. `sid` models the AUTOINCREMENT id. -/
structure Session where
  sid : Nat
  visitor_id : String
  started_at : Int
  last_seen_at : Int
  pageviews : Nat
  entry_path : String
  exit_path : String
  referrer : Option String
  country : Option String
  device_type : Option String
deriving DecidableEq

/-- One row of the `events` table. -/
structure EventRow where
  timestamp : Int
  event_name : String
  visitor_id : String
  path : Option String
  metadata : Option String
deriving DecidableEq

/-- The `pageviews` and `sessions` tables of `AnalyticsStorage`
(the other tables are modelled separately below). -/
structure Storage where
  pageviews : List PageviewRow
  sessions : List Session
  nextSessionId : Nat
deriving DecidableEq

def emptyStorage : Storage := { pageviews := [], sessions := [], nextSessionId := 0 }

/-! ## storage.py : `_update_session` and `record_pageview` -/

/-- The WHERE clause `visitor_id = ? AND last_seen_at > ?` of the active-session
query in `_update_session`. -/
def sessionMatches (visitor_id : String) (cutoff : Int) (s : Session) : Bool :=
  s.visitor_id == visitor_id && decide (cutoff < s.last_seen_at)

/-- `ORDER BY last_seen_at DESC LIMIT 1` over the matching rows.  SQLite leaves
the order of ties unspecified; this model keeps the first row on ties. -/
def pickLatest : List Session → Option Session
  | [] => none
  | s :: rest =>
    match pickLatest rest with
    | none => some s
    | some t => if t.last_seen_at > s.last_seen_at then some t else some s

/-- `AnalyticsStorage._update_session`: fold one pageview into the active
session of the visitor, or open a new session.  `timestamp` is the pageview's
timestamp; the cutoff `utcnow() - 30 minutes` is computed from the same
instant (the two `utcnow()` calls happen within the same request). -/
def update_session (visitor_id path : String)
    (referrer country device_type : Option String)
    (timestamp : Int) (st : Storage) : Storage :=
  let cutoff := timestamp - 30 * 60
  match pickLatest (st.sessions.filter (sessionMatches visitor_id cutoff)) with
  | some row =>
    { st with
      sessions := st.sessions.map (fun s =>
        if s.sid = row.sid then
          { s with last_seen_at := timestamp, pageviews := row.pageviews + 1,
                   exit_path := path }
        else s) }
  | none =>
    { st with
      sessions := st.sessions ++
        [{ sid := st.nextSessionId, visitor_id := visitor_id,
           started_at := timestamp, last_seen_at := timestamp, pageviews := 1,
           entry_path := path, exit_path := path, referrer := referrer,
           country := country, device_type := device_type }],
      nextSessionId := st.nextSessionId + 1 }

/-- The keyword parameters of `AnalyticsStorage.record_pageview` other than the
two required ones; all default to `None`/`False`/`None`. -/
structure PageviewArgs where
  path : String
  visitor_id : String
  referrer : Option String := none
  referrer_domain : Option String := none
  country : Option String := none
  city : Option String := none
  user_agent : Option String := none
  browser : Option String := none
  browser_version : Option String := none
  os : Option String := none
  device_type : Option String := none
  is_bot : Bool := false
  response_time_ms : Option Int := none
  status_code : Option Int := none
  utm_source : Option String := none
  utm_medium : Option String := none
  utm_campaign : Option String := none
  utm_content : Option String := none
  utm_term : Option String := none
deriving DecidableEq

/-- `AnalyticsStorage.record_pageview`: insert one pageview row (with the
current UTC timestamp, passed here explicitly), then reconcile the session.
Returns `cursor.lastrowid` (modelled as the new number of rows) and the new
storage state.  Note the session reconciler receives `referrer_domain` as its
`referrer` argument, exactly as in the source. -/
def record_pageview (a : PageviewArgs) (timestamp : Int) (st : Storage) :
    Nat × Storage :=
  let row : PageviewRow :=
    { timestamp := timestamp, path := a.path, referrer := a.referrer,
      referrer_domain := a.referrer_domain, visitor_id := a.visitor_id,
      country := a.country, city := a.city, user_agent := a.user_agent,
      browser := a.browser, browser_version := a.browser_version, os := a.os,
      device_type := a.device_type, is_bot := a.is_bot,
      response_time_ms := a.response_time_ms, status_code := a.status_code,
      utm_source := a.utm_source, utm_medium := a.utm_medium,
      utm_campaign := a.utm_campaign, utm_content := a.utm_content,
      utm_term := a.utm_term }
  let st1 : Storage := { st with pageviews := st.pageviews ++ [row] }
  let st2 := update_session a.visitor_id a.path a.referrer_domain a.country
    a.device_type timestamp st1
  (st1.pageviews.length, st2)

/-- Record a sequence of pageviews, each with its timestamp, in order. -/
def recordAll : List (PageviewArgs × Int) → Storage → Storage
  | [], st => st
  | (a, t) :: rest, st => recordAll rest (record_pageview a t st).2

/-! ## Session-reconciliation invariants (claims C1 and C2) -/

/-- Consecutive-gap condition: starting from the time `prev` of the previous
pageview, every pageview in the list happens no earlier than its predecessor
and less than 30 minutes after it. -/
def gapsOk : Int → List (PageviewArgs × Int) → Prop
  | _, [] => True
  | prev, (_, t) :: rest => prev ≤ t ∧ t - prev < 1800 ∧ gapsOk t rest

instance : ∀ (t : Int) (l : List (PageviewArgs × Int)), Decidable (gapsOk t l)
  | _, [] => .isTrue trivial
  | _, (_, t) :: rest =>
    have : Decidable (gapsOk t rest) := instDecidableGapsOk t rest
    instDecidableAnd

/-- The last element of the nonempty list `x :: l`. -/
def lastEntry (x : PageviewArgs × Int) : List (PageviewArgs × Int) →
    PageviewArgs × Int
  | [] => x
  | y :: rest => lastEntry y rest

/-- The effect on the active session of folding in a list of pageviews, one
`UPDATE sessions` at a time. -/
def foldSess (s : Session) : List (PageviewArgs × Int) → Session
  | [] => s
  | (a, t) :: rest =>
    foldSess { s with last_seen_at := t, pageviews := s.pageviews + 1,
                      exit_path := a.path } rest

theorem foldSess_fixed (l : List (PageviewArgs × Int)) :
    ∀ s : Session, (foldSess s l).sid = s.sid ∧
      (foldSess s l).visitor_id = s.visitor_id ∧
      (foldSess s l).started_at = s.started_at ∧
      (foldSess s l).entry_path = s.entry_path ∧
      (foldSess s l).referrer = s.referrer ∧
      (foldSess s l).country = s.country ∧
      (foldSess s l).device_type = s.device_type := by
  induction l with
  | nil => intro s; exact ⟨rfl, rfl, rfl, rfl, rfl, rfl, rfl⟩
  | cons x rest ih =>
    intro s
    obtain ⟨a, t⟩ := x
    simpa [foldSess] using ih _

theorem foldSess_pageviews (l : List (PageviewArgs × Int)) :
    ∀ s : Session, (foldSess s l).pageviews = s.pageviews + l.length := by
  induction l with
  | nil => intro s; simp [foldSess]
  | cons x rest ih =>
    intro s
    obtain ⟨a, t⟩ := x
    simp [foldSess, ih]
    omega

theorem foldSess_last (l : List (PageviewArgs × Int)) :
    ∀ (x : PageviewArgs × Int) (s : Session),
      (foldSess s (x :: l)).last_seen_at = (lastEntry x l).2 ∧
      (foldSess s (x :: l)).exit_path = (lastEntry x l).1.path := by
  induction l with
  | nil =>
    intro x s
    obtain ⟨a, t⟩ := x
    simp [foldSess, lastEntry]
  | cons y rest ih =>
    intro x s
    obtain ⟨a, t⟩ := x
    have h := ih y { s with last_seen_at := t, pageviews := s.pageviews + 1, exit_path := a.path }
    simpa [foldSess, lastEntry] using h

theorem sessionMatches_iff (v : String) (c : Int) (r : Session) :
    sessionMatches v c r = true ↔ r.visitor_id = v ∧ c < r.last_seen_at := by
  simp [sessionMatches]

theorem filter_eq_nil_of (p : Session → Bool) :
    ∀ l : List Session, (∀ r ∈ l, ¬ p r = true) → l.filter p = []
  | [], _ => rfl
  | r :: rest, h => by
    have hr : p r = false := Bool.eq_false_iff.mpr (h r (List.mem_cons_self r rest))
    rw [List.filter_cons_of_neg]
    · exact filter_eq_nil_of p rest fun x hx => h x (List.mem_cons_of_mem r hx)
    · simp [hr]

theorem map_untouched (f : Session → Session) :
    ∀ l : List Session, (∀ r ∈ l, f r = r) → l.map f = l
  | [], _ => rfl
  | r :: rest, h => by
    simp only [List.map_cons]
    rw [h r (List.mem_cons_self r rest),
      map_untouched f rest fun x hx => h x (List.mem_cons_of_mem r hx)]

/-- Central invariant of the session reconciler: if the sessions table is
`pre ++ [s]` where `s` is the visitor's active session and every row in `pre`
is either another visitor's or stale by at least 30 minutes, then recording a
gap-free pageview sequence only folds into `s`. -/
theorem recordAll_active (v : String) (l : List (PageviewArgs × Int)) :
    ∀ (st : Storage) (pre : List Session) (s : Session),
      st.sessions = pre ++ [s] →
      s.visitor_id = v →
      (∀ x ∈ l, x.1.visitor_id = v) →
      gapsOk s.last_seen_at l →
      (∀ r ∈ pre, r.visitor_id ≠ v ∨ r.last_seen_at + 1800 ≤ s.last_seen_at) →
      (∀ r ∈ pre, r.sid ≠ s.sid) →
      (recordAll l st).sessions = pre ++ [foldSess s l] ∧
      (recordAll l st).nextSessionId = st.nextSessionId := by
  induction l with
  | nil =>
    intro st pre s hs _ _ _ _ _
    exact ⟨by simpa [recordAll, foldSess] using hs, rfl⟩
  | cons x rest ih =>
    obtain ⟨a, t⟩ := x
    intro st pre s hs hv hall hgaps hstale hsid
    obtain ⟨hle, hlt, hgaps'⟩ := hgaps
    have hva : a.visitor_id = v := hall (a, t) (List.mem_cons_self _ _)
    have hcut : t - s.last_seen_at < 30 * 60 := by omega
    have hmatch : sessionMatches a.visitor_id (t - 30 * 60) s = true := by
      rw [sessionMatches_iff]
      refine ⟨by rw [hv, hva], ?_⟩
      omega
    have hprefilter : pre.filter (sessionMatches a.visitor_id (t - 30 * 60)) = [] := by
      apply filter_eq_nil_of
      intro r hr hcontra
      rw [sessionMatches_iff] at hcontra
      obtain ⟨hc1, hc2⟩ := hcontra
      rcases hstale r hr with hvne | hstale'
      · exact hvne (hva ▸ hc1)
      · omega
    have hfilter : (pre ++ [s]).filter (sessionMatches a.visitor_id (t - 30 * 60)) = [s] := by
      rw [List.filter_append, hprefilter, List.nil_append,
        List.filter_cons_of_pos hmatch, List.filter_nil]
    have hmap : (pre ++ [s]).map (fun r =>
        if r.sid = s.sid then
          { r with last_seen_at := t, pageviews := s.pageviews + 1, exit_path := a.path }
        else r) =
        pre ++ [{ s with last_seen_at := t, pageviews := s.pageviews + 1, exit_path := a.path }] := by
      rw [List.map_append]
      congr 1
      · apply map_untouched
        intro r hr
        rw [if_neg (hsid r hr)]
      · simp
    have hsess2 : ((record_pageview a t st).2).sessions =
        pre ++ [{ s with last_seen_at := t, pageviews := s.pageviews + 1, exit_path := a.path }] := by
      simp only [record_pageview, update_session]
      rw [hs, hfilter]
      simpa [pickLatest] using hmap
    have hnext2 : ((record_pageview a t st).2).nextSessionId = st.nextSessionId := by
      simp only [record_pageview, update_session]
      rw [hs, hfilter]
      simp [pickLatest]
    have hres := ih (record_pageview a t st).2 pre
      { s with last_seen_at := t, pageviews := s.pageviews + 1, exit_path := a.path }
      hsess2 hv (fun x hx => hall x (List.mem_cons_of_mem _ hx)) hgaps'
      (fun r hr => by
        rcases hstale r hr with hvne | hst
        · exact Or.inl hvne
        · exact Or.inr (show r.last_seen_at + 1800 ≤ t by omega))
      (fun r hr => hsid r hr)
    refine ⟨?_, ?_⟩
    · rw [show recordAll ((a, t) :: rest) st = recordAll rest (record_pageview a t st).2 from rfl]
      rw [hres.1]
      rfl
    · rw [show recordAll ((a, t) :: rest) st = recordAll rest (record_pageview a t st).2 from rfl]
      rw [hres.2, hnext2]

/-- The session row created by the INSERT branch of `_update_session`. -/
def mkSess (sid : Nat) (v : String) (a : PageviewArgs) (t : Int) : Session :=
  { sid := sid, visitor_id := v, started_at := t, last_seen_at := t,
    pageviews := 1, entry_path := a.path, exit_path := a.path,
    referrer := a.referrer_domain, country := a.country,
    device_type := a.device_type }

theorem record_creates (a : PageviewArgs) (t : Int) (st : Storage)
    (hnone : st.sessions.filter (sessionMatches a.visitor_id (t - 30 * 60)) = []) :
    (record_pageview a t st).2.sessions =
      st.sessions ++ [mkSess st.nextSessionId a.visitor_id a t] ∧
    (record_pageview a t st).2.nextSessionId = st.nextSessionId + 1 := by
  have hn : st.sessions.filter (sessionMatches a.visitor_id (t - 1800)) = [] := by
    have e : t - 1800 = t - 30 * 60 := by norm_num
    rw [e]; exact hnone
  constructor
  · simp [record_pageview, update_session, hn, pickLatest, mkSess]
  · simp [record_pageview, update_session, hn, pickLatest]

theorem recordAll_append (l1 l2 : List (PageviewArgs × Int)) :
    ∀ st : Storage, recordAll (l1 ++ l2) st = recordAll l2 (recordAll l1 st) := by
  induction l1 with
  | nil => intro st; rfl
  | cons x rest ih =>
    intro st
    obtain ⟨a, t⟩ := x
    exact ih (record_pageview a t st).2

theorem foldSess_mk_props (sid : Nat) (v : String) (a : PageviewArgs) (t : Int)
    (rest : List (PageviewArgs × Int)) :
    (foldSess (mkSess sid v a t) rest).sid = sid ∧
    (foldSess (mkSess sid v a t) rest).visitor_id = v ∧
    (foldSess (mkSess sid v a t) rest).started_at = t ∧
    (foldSess (mkSess sid v a t) rest).pageviews = rest.length + 1 ∧
    (foldSess (mkSess sid v a t) rest).entry_path = a.path ∧
    (foldSess (mkSess sid v a t) rest).exit_path = (lastEntry (a, t) rest).1.path ∧
    (foldSess (mkSess sid v a t) rest).last_seen_at = (lastEntry (a, t) rest).2 := by
  obtain ⟨f1, f2, f3, f4, f5, f6, f7⟩ := foldSess_fixed rest (mkSess sid v a t)
  have hp := foldSess_pageviews rest (mkSess sid v a t)
  cases rest with
  | nil =>
    exact ⟨rfl, rfl, rfl, rfl, rfl, rfl, rfl⟩
  | cons y ys =>
    obtain ⟨h8, h9⟩ := foldSess_last ys y (mkSess sid v a t)
    refine ⟨f1, f2, f3, ?_, f4, h9, h8⟩
    rw [hp]
    simp [mkSess]
    omega

/-- Running a gap-free pageview sequence for one visitor on an empty store
yields one session, namely the freshly created one folded over the tail. -/
theorem run_from_empty (v : String) (a : PageviewArgs) (t : Int)
    (rest : List (PageviewArgs × Int))
    (hva : a.visitor_id = v) (hall : ∀ x ∈ rest, x.1.visitor_id = v)
    (hgaps : gapsOk t rest) :
    (recordAll ((a, t) :: rest) emptyStorage).sessions =
      [foldSess (mkSess 0 v a t) rest] ∧
    (recordAll ((a, t) :: rest) emptyStorage).nextSessionId = 1 := by
  have hnone : (emptyStorage.sessions).filter
      (sessionMatches a.visitor_id (t - 30 * 60)) = [] := rfl
  obtain ⟨hcs, hcn⟩ := record_creates a t emptyStorage hnone
  rw [hva] at hcs
  have hstep : recordAll ((a, t) :: rest) emptyStorage =
      recordAll rest (record_pageview a t emptyStorage).2 := rfl
  have hres := recordAll_active v rest (record_pageview a t emptyStorage).2 []
    (mkSess 0 v a t) (by simpa using hcs) rfl hall hgaps
    (by intro r hr; cases hr) (by intro r hr; cases hr)
  rw [hstep]
  refine ⟨by simpa using hres.1, ?_⟩
  rw [hres.2, hcn]
  rfl

/-- C1: for every sequence of pageviews recorded for the same visitor in which
each consecutive pair is separated by less than 30 minutes, the session
reconciler (`_update_session`, invoked by `record_pageview`) yields exactly one
`Session` row, whose `pageviews` count is the length of the sequence, whose
`entry_path` is the path of the first pageview, and whose `exit_path` is the
path of the last pageview. -/
theorem c1_session_reconciler_single (v : String) (a : PageviewArgs) (t : Int)
    (rest : List (PageviewArgs × Int))
    (hva : a.visitor_id = v) (hall : ∀ x ∈ rest, x.1.visitor_id = v)
    (hgaps : gapsOk t rest) :
    ∃ s : Session,
      (recordAll ((a, t) :: rest) emptyStorage).sessions = [s] ∧
      s.visitor_id = v ∧
      s.pageviews = rest.length + 1 ∧
      s.entry_path = a.path ∧
      s.exit_path = (lastEntry (a, t) rest).1.path ∧
      s.started_at = t ∧
      s.last_seen_at = (lastEntry (a, t) rest).2 := by
  obtain ⟨hs, _⟩ := run_from_empty v a t rest hva hall hgaps
  obtain ⟨p1, p2, p3, p4, p5, p6, p7⟩ := foldSess_mk_props 0 v a t rest
  exact ⟨_, hs, p2, p4, p5, p6, p3, p7⟩

/-- Witness for C1: visitor `v1` visits `/a`, `/b`, `/a` at 0, 600 and 1200
seconds; exactly one session results, with 3 pageviews, entry `/a`, exit `/a`. -/
theorem c1_session_reconciler_single_witness :
    ∃ s : Session,
      (recordAll [({ path := "/a", visitor_id := "v1" }, 0),
                  ({ path := "/b", visitor_id := "v1" }, 600),
                  ({ path := "/a", visitor_id := "v1" }, 1200)]
        emptyStorage).sessions = [s] ∧
      s.visitor_id = "v1" ∧
      s.pageviews = 3 ∧
      s.entry_path = "/a" ∧
      s.exit_path = "/a" ∧
      s.started_at = 0 ∧
      s.last_seen_at = 1200 := by
  have h := c1_session_reconciler_single "v1" { path := "/a", visitor_id := "v1" } 0
    [({ path := "/b", visitor_id := "v1" }, 600), ({ path := "/a", visitor_id := "v1" }, 1200)]
    rfl (by decide) (by decide)
  simpa [lastEntry] using h

/-- C2: one gap of at least 30 minutes between two consecutive pageviews of
the same visitor (all other gaps under 30 minutes) yields exactly two session
rows, the first covering the pageviews before the gap and the second covering
those after it. -/
theorem c2_session_reconciler_split (v : String) (a b : PageviewArgs) (t u : Int)
    (restA restB : List (PageviewArgs × Int))
    (hva : a.visitor_id = v) (hvb : b.visitor_id = v)
    (hallA : ∀ x ∈ restA, x.1.visitor_id = v)
    (hallB : ∀ x ∈ restB, x.1.visitor_id = v)
    (hgapsA : gapsOk t restA) (hgapsB : gapsOk u restB)
    (hgap : (lastEntry (a, t) restA).2 + 1800 ≤ u) :
    ∃ s1 s2 : Session,
      (recordAll (((a, t) :: restA) ++ ((b, u) :: restB)) emptyStorage).sessions
        = [s1, s2] ∧
      s1.visitor_id = v ∧ s1.pageviews = restA.length + 1 ∧
      s1.entry_path = a.path ∧ s1.exit_path = (lastEntry (a, t) restA).1.path ∧
      s1.started_at = t ∧ s1.last_seen_at = (lastEntry (a, t) restA).2 ∧
      s2.visitor_id = v ∧ s2.pageviews = restB.length + 1 ∧
      s2.entry_path = b.path ∧ s2.exit_path = (lastEntry (b, u) restB).1.path ∧
      s2.started_at = u ∧ s2.last_seen_at = (lastEntry (b, u) restB).2 := by
  obtain ⟨h1s, h1n⟩ := run_from_empty v a t restA hva hallA hgapsA
  obtain ⟨q1, q2, q3, q4, q5, q6, q7⟩ := foldSess_mk_props 0 v a t restA
  have hfilter : ((recordAll ((a, t) :: restA) emptyStorage).sessions).filter
      (sessionMatches b.visitor_id (u - 30 * 60)) = [] := by
    rw [h1s]
    apply filter_eq_nil_of
    intro r hr hc
    have hrq : r = foldSess (mkSess 0 v a t) restA := List.mem_singleton.mp hr
    rw [sessionMatches_iff] at hc
    obtain ⟨_, hc2⟩ := hc
    rw [hrq, q7] at hc2
    omega
  obtain ⟨hcs, hcn⟩ := record_creates b u (recordAll ((a, t) :: restA) emptyStorage) hfilter
  rw [h1s, h1n, hvb] at hcs
  have hres := recordAll_active v restB
    (record_pageview b u (recordAll ((a, t) :: restA) emptyStorage)).2
    [foldSess (mkSess 0 v a t) restA] (mkSess 1 v b u)
    hcs rfl hallB hgapsB
    (fun r hr => by
      have hrq : r = foldSess (mkSess 0 v a t) restA := List.mem_singleton.mp hr
      exact Or.inr (show r.last_seen_at + 1800 ≤ u by rw [hrq, q7]; omega))
    (fun r hr => by
      have hrq : r = foldSess (mkSess 0 v a t) restA := List.mem_singleton.mp hr
      rw [hrq, q1]
      simp [mkSess])
  obtain ⟨w1, w2, w3, w4, w5, w6, w7⟩ := foldSess_mk_props 1 v b u restB
  refine ⟨foldSess (mkSess 0 v a t) restA, foldSess (mkSess 1 v b u) restB, ?_,
    q2, q4, q5, q6, q3, q7, w2, w4, w5, w6, w3, w7⟩
  rw [recordAll_append]
  rw [show recordAll ((b, u) :: restB) (recordAll ((a, t) :: restA) emptyStorage) =
    recordAll restB (record_pageview b u (recordAll ((a, t) :: restA) emptyStorage)).2 from rfl]
  rw [hres.1]
  rfl

/-- Witness for C2: visitor `v1` visits `/a` at 0 and 600 seconds, then `/b`
and `/c` at 3000 and 3300 seconds (a 40-minute gap after second pageview);
exactly two sessions result, split at the gap. -/
theorem c2_session_reconciler_split_witness :
    ∃ s1 s2 : Session,
      (recordAll ([({ path := "/a", visitor_id := "v1" }, 0),
                   ({ path := "/a2", visitor_id := "v1" }, 600)] ++
                  [({ path := "/b", visitor_id := "v1" }, 3000),
                   ({ path := "/c", visitor_id := "v1" }, 3300)])
        emptyStorage).sessions = [s1, s2] ∧
      s1.visitor_id = "v1" ∧ s1.pageviews = 2 ∧
      s1.entry_path = "/a" ∧ s1.exit_path = "/a2" ∧
      s1.started_at = 0 ∧ s1.last_seen_at = 600 ∧
      s2.visitor_id = "v1" ∧ s2.pageviews = 2 ∧
      s2.entry_path = "/b" ∧ s2.exit_path = "/c" ∧
      s2.started_at = 3000 ∧ s2.last_seen_at = 3300 := by
  have h := c2_session_reconciler_split "v1"
    { path := "/a", visitor_id := "v1" } { path := "/b", visitor_id := "v1" } 0 3000
    [({ path := "/a2", visitor_id := "v1" }, 600)]
    [({ path := "/c", visitor_id := "v1" }, 3300)]
    rfl rfl (by decide) (by decide) (by decide) (by decide) (by decide)
  simpa [lastEntry] using h

/-! ## parser.py : user-agent parsing and domain extraction

The regular expressions in `parser.py` are literal substrings, or literals
followed by a digit group `(\d+)`, or the two patterns with an inner `.*`
(`Trident/.*rv:(\d+)` and `iPad.*OS (\d+)`) where `.` does not cross a
newline.  They are embedded as character-list scanners with `re.search`
semantics (leftmost position at which the whole pattern can match; a greedy
`\d+` takes the maximal digit run; a greedy `.*` makes the engine pick the
rightmost completion on the line). -/

/-- Whether `pat` is a prefix of `text` (character lists). -/
def beginsWith : List Char → List Char → Bool
  | [], _ => true
  | _ :: _, [] => false
  | p :: ps, c :: cs => p == c && beginsWith ps cs

/-- Whether `pat` occurs as a contiguous subsequence of `text`. -/
def containsSeq (pat : List Char) : List Char → Bool
  | [] => beginsWith pat []
  | c :: cs => beginsWith pat (c :: cs) || containsSeq pat cs

/-- Lower-case a character list (model of `re.IGNORECASE` matching). -/
def strLower (l : List Char) : List Char := l.map Char.toLower

/-- Case-insensitive containment of the pattern string in the text. -/
def containsCI (pat : String) (text : List Char) : Bool :=
  containsSeq (strLower pat.data) (strLower text)

/-- `re.search(lit ++ r"(\d+)", text)`: scan for the literal followed by at
least one digit; return the maximal digit run of the leftmost match. -/
def digitsAfter (pat : List Char) : List Char → Option (List Char)
  | [] => none
  | c :: cs =>
    if beginsWith pat (c :: cs) then
      let ds := ((c :: cs).drop pat.length).takeWhile Char.isDigit
      if ds.isEmpty then digitsAfter pat cs else some ds
    else digitsAfter pat cs

/-- Search `lit ++ r"(\d+)"` on the current line only (for the `.*` patterns,
whose dot does not cross a newline); a greedy `.*` means the rightmost
completion wins, hence the recursive result is preferred. -/
def digitsAfterNoNLLast (pat : List Char) : List Char → Option (List Char)
  | [] => none
  | c :: cs =>
    if c == '\n' then none
    else
      let here : Option (List Char) :=
        if beginsWith pat (c :: cs) then
          let ds := ((c :: cs).drop pat.length).takeWhile Char.isDigit
          if ds.isEmpty then none else some ds
        else none
      match digitsAfterNoNLLast pat cs with
      | some r => some r
      | none => here

/-- Boolean form of the same-line search `lit` followed by a digit. -/
def litDigitNoNL (pat : List Char) : List Char → Bool
  | [] => false
  | c :: cs =>
    if c == '\n' then false
    else
      (beginsWith pat (c :: cs) &&
        !(((c :: cs).drop pat.length).takeWhile Char.isDigit).isEmpty)
      || litDigitNoNL pat cs

/-- `BOT_PATTERNS` from `parser.py` (all literal, matched case-insensitively). -/
def bot_patterns : List String :=
  ["bot", "crawl", "spider", "slurp", "search", "fetch", "scrape", "wget",
   "curl", "python-requests", "python-urllib", "java", "perl", "ruby",
   "go-http", "apache-httpclient", "googlebot", "bingbot", "yandex", "baidu",
   "duckduck", "facebook", "twitter", "whatsapp", "telegram", "slack",
   "discord", "linkedin", "pinterest", "semrush", "ahrefs", "mj12bot",
   "dotbot", "petalbot", "bytespider", "gptbot", "claudebot", "anthropic",
   "openai", "chatgpt", "headless", "phantom", "selenium", "puppeteer",
   "playwright", "lighthouse", "pagespeed", "gtmetrix", "pingdom", "uptime",
   "monitor", "health", "probe", "check"]

/-- `BOT_REGEX.search(ua)`: the alternation of literal patterns matches iff
some pattern is a case-insensitive substring. -/
def isBotUA (t : List Char) : Bool :=
  bot_patterns.any (fun p => containsCI p t)

/-- `BROWSER_PATTERNS` except the `Trident` one: a literal followed by a digit
group, with the browser name reported on match.  Order as in the source. -/
def browser_patterns_lit : List (String × String) :=
  [("Firefox/", "Firefox"), ("Edg/", "Edge"), ("OPR/", "Opera"),
   ("Opera/", "Opera"), ("Chrome/", "Chrome"), ("Safari/", "Safari"),
   ("MSIE ", "Internet Explorer")]

/-- First browser pattern that matches, with its captured version digits. -/
def findBrowser : List (String × String) → List Char → Option (String × String)
  | [], _ => none
  | (pat, name) :: rest, t =>
    match digitsAfter pat.data t with
    | some ds => some (name, String.mk ds)
    | none => findBrowser rest t

/-- `re.search(r"Trident/.*rv:(\d+)", ua)`: leftmost `Trident/` from which an
`rv:` digit group is reachable on the same line. -/
def tridentVersion : List Char → Option (List Char)
  | [] => none
  | c :: cs =>
    if beginsWith ("Trident/".data) (c :: cs) then
      match digitsAfterNoNLLast ("rv:".data) ((c :: cs).drop 8) with
      | some ds => some ds
      | none => tridentVersion cs
    else tridentVersion cs

/-- The browser detection loop of `parse_user_agent` (first match wins). -/
def browserOf (t : List Char) : Option (String × String) :=
  match findBrowser browser_patterns_lit t with
  | some r => some r
  | none =>
    match tridentVersion t with
    | some ds => some ("Internet Explorer", String.mk ds)
    | none => none

/-- `re.search(r"Mac OS X (\d+[._]\d+)", ua)` as a boolean (the OS loop only
tests for a match): literal, digits, one of `.`/`_`, then a digit. -/
def macVersionMatch : List Char → Bool
  | [] => false
  | c :: cs =>
    (beginsWith ("Mac OS X ".data) (c :: cs) &&
      (let rest := (c :: cs).drop 9
       let ds := rest.takeWhile Char.isDigit
       !ds.isEmpty &&
         (match rest.drop ds.length with
          | sep :: d2 :: _ => (sep == '.' || sep == '_') && d2.isDigit
          | _ => false)))
    || macVersionMatch cs

/-- `re.search(r"iPad.*OS (\d+)", ua)` as a boolean. -/
def ipadMatch : List Char → Bool
  | [] => false
  | c :: cs =>
    (beginsWith ("iPad".data) (c :: cs) &&
      litDigitNoNL ("OS ".data) ((c :: cs).drop 4))
    || ipadMatch cs

/-- The OS detection loop of `parse_user_agent` over `OS_PATTERNS`, in source
order, first match wins (all matches are case-sensitive). -/
def osOf (t : List Char) : Option String :=
  if containsSeq ("Windows NT 10.0".data) t then some "Windows 10/11"
  else if containsSeq ("Windows NT 6.3".data) t then some "Windows 8.1"
  else if containsSeq ("Windows NT 6.2".data) t then some "Windows 8"
  else if containsSeq ("Windows NT 6.1".data) t then some "Windows 7"
  else if containsSeq ("Windows".data) t then some "Windows"
  else if macVersionMatch t then some "macOS"
  else if containsSeq ("Macintosh".data) t then some "macOS"
  else if (digitsAfter ("Android ".data) t).isSome then some "Android"
  else if (digitsAfter ("iPhone OS ".data) t).isSome then some "iOS"
  else if ipadMatch t then some "iPadOS"
  else if containsSeq ("Linux".data) t then some "Linux"
  else if containsSeq ("CrOS".data) t then some "ChromeOS"
  else if containsSeq ("Ubuntu".data) t then some "Ubuntu"
  else if containsSeq ("Fedora".data) t then some "Fedora"
  else none

/-- `TABLET_PATTERNS` (literals, matched case-insensitively). -/
def tablet_patterns : List String := ["iPad", "Tablet", "PlayBook", "Silk"]

/-- `MOBILE_PATTERNS` (literals, matched case-insensitively). -/
def mobile_patterns : List String :=
  ["Mobile", "Android", "iPhone", "iPod", "BlackBerry", "Windows Phone",
   "Opera Mini", "Opera Mobi"]

/-- The device-type detection of `parse_user_agent`: tablet patterns are
checked before mobile patterns; the default is desktop. -/
def deviceOf (t : List Char) : String :=
  if tablet_patterns.any (fun p => containsCI p t) then "tablet"
  else if mobile_patterns.any (fun p => containsCI p t) then "mobile"
  else "desktop"

/-- The `ParsedUserAgent` dataclass of `parser.py`. -/
structure ParsedUserAgent where
  browser : Option String
  browser_version : Option String
  os : Option String
  device_type : String
  is_bot : Bool
  raw : String
deriving DecidableEq

/-- `parse_user_agent(ua)`.  A Python argument of `None` or `""` is falsy, so
both take the early-return branch. -/
def parse_user_agent (ua : Option String) : ParsedUserAgent :=
  match ua with
  | none =>
    { browser := none, browser_version := none, os := none,
      device_type := "unknown", is_bot := false, raw := "" }
  | some u =>
    if u = "" then
      { browser := none, browser_version := none, os := none,
        device_type := "unknown", is_bot := false, raw := "" }
    else
      let t := u.data
      let b := browserOf t
      { browser := b.map (fun r => r.1),
        browser_version := b.map (fun r => r.2),
        os := osOf t,
        device_type := deviceOf t,
        is_bot := isBotUA t,
        raw := u }

/-- `re.sub(r"^https?://", "", url)`: remove one leading protocol marker. -/
def stripProtocol (s : String) : String :=
  if beginsWith ("https://".data) s.data then String.mk (s.data.drop 8)
  else if beginsWith ("http://".data) s.data then String.mk (s.data.drop 7)
  else s

/-- `re.sub(r"^www\.", "", url)`: remove one leading `www.` label. -/
def stripWWW (s : String) : String :=
  if beginsWith ("www.".data) s.data then String.mk (s.data.drop 4) else s

/-- `split(sep)[0]`: the characters before the first occurrence of `sep`
(Python `str.split` always has the leading segment as element 0). -/
def beforeChar (sep : Char) (s : String) : String :=
  String.mk (s.data.takeWhile (fun c => c != sep))

/-- `extract_domain(url)` from `parser.py`: falsy input gives `None`; strip
protocol and `www.`, take the part before the first `/` (`split("/")[0]`),
strip the part after the first `:` (`split(":")[0]`), and return the result
unless it is empty. -/
def extract_domain (url : Option String) : Option String :=
  match url with
  | none => none
  | some u =>
    if u = "" then none
    else
      let u1 := stripProtocol u
      let u2 := stripWWW u1
      let d1 := beforeChar '/' u2
      let d2 := beforeChar ':' d1
      if d2 = "" then none else some d2

/-- The domain pipeline exactly as claim C7 words it: strip protocol, strip a
leading `www.`, take the substring before the first `/`, strip a trailing
`:port`. -/
def claimDomainPipeline (s : String) : String :=
  beforeChar ':' (beforeChar '/' (stripWWW (stripProtocol s)))

/-- C9: a missing or empty client agent string parses to no browser, no
browser version, no OS, device type `unknown`, and not a bot. -/
theorem c9_empty_user_agent :
    parse_user_agent none =
      { browser := none, browser_version := none, os := none,
        device_type := "unknown", is_bot := false, raw := "" } ∧
    parse_user_agent (some "") =
      { browser := none, browser_version := none, os := none,
        device_type := "unknown", is_bot := false, raw := "" } := by
  constructor
  · rfl
  · simp [parse_user_agent]

/-- C7: `extract_domain` returns `None` on `None` or empty input, and on other
input runs the claimed pipeline (strip protocol, strip leading `www.`, cut at
the first `/`, cut at the first `:`); the two concrete examples of the claim
are included. -/
theorem c7_extract_domain :
    extract_domain none = none ∧
    extract_domain (some "") = none ∧
    (∀ s : String, claimDomainPipeline s ≠ "" →
      extract_domain (some s) = some (claimDomainPipeline s)) ∧
    extract_domain (some "https://www.example.com/page?x=1") = some "example.com" ∧
    extract_domain (some "example.com:8080/path") = some "example.com" := by
  refine ⟨rfl, by simp [extract_domain], ?_, by decide, by decide⟩
  intro s h
  by_cases hs : s = ""
  · subst hs
    exact absurd (by decide) h
  · simp only [claimDomainPipeline] at h
    simp only [extract_domain, claimDomainPipeline]
    rw [if_neg hs, if_neg h]

/-- Witness for C7: the pipeline hypothesis instantiated at the claim's first
example URL. -/
theorem c7_extract_domain_witness :
    claimDomainPipeline "https://www.example.com/page?x=1" ≠ "" ∧
    extract_domain (some "https://www.example.com/page?x=1") =
      some (claimDomainPipeline "https://www.example.com/page?x=1") :=
  ⟨by decide, c7_extract_domain.2.2.1 "https://www.example.com/page?x=1" (by decide)⟩

/-! ## middleware.py : client-IP extraction and the tracking dispatch -/

/-- The parts of a Starlette request that `AnalyticsMiddleware` reads: the
method, the URL path, the four headers it consults, and the peer address
(`request.client`, `None` when absent). -/
structure RequestInfo where
  method : String
  path : String
  x_forwarded_for : Option String := none
  x_real_ip : Option String := none
  cf_connecting_ip : Option String := none
  user_agent : Option String := none
  referer : Option String := none
  client_host : Option String := none
deriving DecidableEq

/-- The only part of the response the middleware reads. -/
structure Response where
  status_code : Int
deriving DecidableEq

/-- The two fields of `geo.GeoInfo` that the middleware reads. -/
structure GeoInfo where
  country : Option String := none
  city : Option String := none
deriving DecidableEq

/-- Python truthiness of an optional header string: `None` and `""` are falsy. -/
def truthy : Option String → Option String
  | none => none
  | some s => if s = "" then none else some s

/-- Python `str.strip()` (whitespace at both ends removed). -/
def pyStrip (s : String) : String :=
  String.mk (((s.data.dropWhile Char.isWhitespace).reverse.dropWhile
    Char.isWhitespace).reverse)

/-- `AnalyticsMiddleware._get_client_ip` (middleware.py lines 53-73): the
`x-forwarded-for` header is consulted first (first entry, stripped), then
`x-real-ip`, then `cf-connecting-ip`, then the peer address, else `unknown`. -/
def _get_client_ip (req : RequestInfo) : String :=
  match truthy req.x_forwarded_for with
  | some forwarded => pyStrip (beforeChar ',' forwarded)
  | none =>
    match truthy req.x_real_ip with
    | some real_ip => pyStrip real_ip
    | none =>
      match truthy req.cf_connecting_ip with
      | some cf_ip => pyStrip cf_ip
      | none =>
        match req.client_host with
        | some h => h
        | none => "unknown"

/-- The precedence order asserted by claim C3 (spec 4.1), in the claim's own
words: the CDN connecting-IP header first, then the first entry of the
forwarded-for header, then the real-IP header, then the peer address, else
the sentinel. -/
def claimOrderClientIp (req : RequestInfo) : String :=
  match truthy req.cf_connecting_ip with
  | some cf_ip => pyStrip cf_ip
  | none =>
    match truthy req.x_forwarded_for with
    | some forwarded => pyStrip (beforeChar ',' forwarded)
    | none =>
      match truthy req.x_real_ip with
      | some real_ip => pyStrip real_ip
      | none =>
        match req.client_host with
        | some h => h
        | none => "unknown"

/-- `EXCLUDED_PATHS` from middleware.py. -/
def EXCLUDED_PATHS : List String :=
  ["/health", "/favicon.ico", "/robots.txt", "/sitemap.xml"]

/-- `EXCLUDED_PREFIXES` from middleware.py. -/
def EXCLUDED_PREFIXES : List String :=
  ["/static/", "/image/", "/admin/analytics", "/_"]

/-- `AnalyticsMiddleware._should_track`. -/
def _should_track (req : RequestInfo) : Bool :=
  !(EXCLUDED_PATHS.contains req.path) &&
  !(EXCLUDED_PREFIXES.any (fun p => beginsWith p.data req.path.data)) &&
  (req.method == "GET" || req.method == "POST")

/-! ### Keyword binding of the `record_pageview` call

The middleware invokes `self.storage.record_pageview(...)` with keyword
arguments.  Python binds keywords by name against the callee's signature and
raises `TypeError` when a keyword does not name a parameter (or a required
parameter is missing).  We model the binding check by name. -/

/-- The parameter names of `AnalyticsStorage.record_pageview`, paired with
whether the parameter is required (has no default). -/
def record_pageview_params : List (String × Bool) :=
  [("path", true), ("visitor_id", true), ("referrer", false),
   ("referrer_domain", false), ("country", false), ("city", false),
   ("user_agent", false), ("browser", false), ("browser_version", false),
   ("os", false), ("device_type", false), ("is_bot", false),
   ("response_time_ms", false), ("status_code", false), ("utm_source", false),
   ("utm_medium", false), ("utm_campaign", false), ("utm_content", false),
   ("utm_term", false)]

/-- The keyword names used at the call site in `dispatch`
(middleware.py lines 141-156), in source order. -/
def middleware_call_kwargs : List String :=
  ["path", "visitor_hash", "ip_address", "referrer", "country", "city",
   "user_agent", "browser", "browser_version", "os", "device_type", "is_bot",
   "response_time_ms", "status_code"]

/-- Python keyword binding: an unexpected keyword raises `TypeError`, then a
missing required parameter raises `TypeError`; otherwise the call binds. -/
def kwargBindError (params : List (String × Bool)) (kwargs : List String) :
    Option String :=
  match kwargs.find? (fun k => !(params.any (fun p => p.1 == k))) with
  | some k =>
    some ("TypeError: record_pageview() got an unexpected keyword argument " ++ k)
  | none =>
    match params.find? (fun p => p.2 && !(kwargs.contains p.1)) with
    | some p =>
      some ("TypeError: record_pageview() missing required argument " ++ p.1)
    | none => none

/-- The body of the outer `try` block of `AnalyticsMiddleware.dispatch`:
extract request info, absorb any geolocation failure (inner `try`), then
perform the `record_pageview` call.  The geolocation outcome, the visitor
hash function (a salted SHA-256 in the source) and the wall clock are
explicit parameters. -/
def trackStep (req : RequestInfo) (inner : Response)
    (geoResult : Except String (Option GeoInfo))
    (hashVisitor : String → String) (response_time_ms : Int) (now : Int)
    (st : Storage) : Except String Storage :=
  let ip := _get_client_ip req
  let visitor_hash := hashVisitor ip
  let user_agent := req.user_agent.getD ""
  let referrer := req.referer
  let path := req.path
  let parsed_ua := parse_user_agent (some user_agent)
  let rd0 : Option String :=
    match referrer with
    | some r => extract_domain (some r)
    | none => none
  let referrer_domain : Option String :=
    match rd0 with
    | some d => if containsSeq ("neverdecel".data) d.data then none else some d
    | none => none
  let geo : Option GeoInfo :=
    match geoResult with
    | .ok g => g
    | .error _ => none
  match kwargBindError record_pageview_params middleware_call_kwargs with
  | some e => .error e
  | none =>
    -- Dead branch: the keyword binding above always fails for this call site
    -- (`visitor_hash` is not a parameter of `record_pageview`).  Were the
    -- binding to succeed, the insert would run with the values prepared above.
    .ok (record_pageview
      { path := path, visitor_id := visitor_hash, referrer := referrer_domain,
        country := geo.bind (fun g => g.country),
        city := geo.bind (fun g => g.city),
        user_agent := some (String.mk (user_agent.data.take 500)),
        browser := parsed_ua.browser,
        browser_version := parsed_ua.browser_version, os := parsed_ua.os,
        device_type := some parsed_ua.device_type, is_bot := parsed_ua.is_bot,
        response_time_ms := some response_time_ms,
        status_code := some inner.status_code } now st).2

/-- `AnalyticsMiddleware.dispatch`: untracked requests pass through; tracked
requests run `trackStep` under a catch-all `except` that only logs, and the
inner handler's response is returned in every case. -/
def dispatch (req : RequestInfo) (inner : Response)
    (geoResult : Except String (Option GeoInfo))
    (hashVisitor : String → String) (response_time_ms : Int) (now : Int)
    (st : Storage) : Response × Storage :=
  if !(_should_track req) then (inner, st)
  else
    match trackStep req inner geoResult hashVisitor response_time_ms now st with
    | .ok st2 => (inner, st2)
    | .error _ => (inner, st)

/-- The concrete request of the C3 counterexample: both a CDN connecting-IP
header and a forwarded-for header are present. -/
def c3Req : RequestInfo :=
  { method := "GET", path := "/", x_forwarded_for := some "2.2.2.2",
    cf_connecting_ip := some "1.1.1.1" }

/-- Counterexample to C3: with both a CDN connecting-IP header and a
forwarded-for header present, `_get_client_ip` returns the forwarded-for
entry, not the CDN header the claim puts first. -/
theorem c3_fingerprinter_precedence_counterexample :
    _get_client_ip c3Req = "2.2.2.2" ∧
    claimOrderClientIp c3Req = "1.1.1.1" ∧
    _get_client_ip c3Req ≠ claimOrderClientIp c3Req := by
  refine ⟨by decide, by decide, by decide⟩

/-- C3 as amended: the visitor fingerprinter returns the first available
signal in the order the code implements — the first entry of the generic
forwarded-for header (stripped), then the generic real-IP header, then the
CDN connecting-IP header, then the raw peer address, and `unknown` only when
all of these are absent (an empty header counts as absent). -/
theorem c3_fingerprinter_precedence_amended (req : RequestInfo) :
    (∀ f, truthy req.x_forwarded_for = some f →
      _get_client_ip req = pyStrip (beforeChar ',' f)) ∧
    (truthy req.x_forwarded_for = none →
      ∀ r, truthy req.x_real_ip = some r → _get_client_ip req = pyStrip r) ∧
    (truthy req.x_forwarded_for = none → truthy req.x_real_ip = none →
      ∀ c, truthy req.cf_connecting_ip = some c →
      _get_client_ip req = pyStrip c) ∧
    (truthy req.x_forwarded_for = none → truthy req.x_real_ip = none →
      truthy req.cf_connecting_ip = none → ∀ h, req.client_host = some h →
      _get_client_ip req = h) ∧
    (truthy req.x_forwarded_for = none → truthy req.x_real_ip = none →
      truthy req.cf_connecting_ip = none → req.client_host = none →
      _get_client_ip req = "unknown") := by
  refine ⟨?_, ?_, ?_, ?_, ?_⟩
  · intro f hf; simp [_get_client_ip, hf]
  · intro h1 r h2; simp [_get_client_ip, h1, h2]
  · intro h1 h2 c h3; simp [_get_client_ip, h1, h2, h3]
  · intro h1 h2 h3 h h4; simp [_get_client_ip, h1, h2, h3, h4]
  · intro h1 h2 h3 h4; simp [_get_client_ip, h1, h2, h3, h4]

/-- A request carrying only a real-IP header, for the C3 witness. -/
def c3WitnessReq : RequestInfo :=
  { method := "GET", path := "/", x_real_ip := some "9.9.9.9" }

/-- Witness for the amended C3, at a request carrying only a real-IP header. -/
theorem c3_fingerprinter_precedence_amended_witness :
    _get_client_ip c3WitnessReq = pyStrip "9.9.9.9" :=
  (c3_fingerprinter_precedence_amended c3WitnessReq).2.1 rfl "9.9.9.9" (by decide)

/-- The `TypeError` message produced by the middleware call site. -/
def typeErrorMsg : String :=
  "TypeError: record_pageview() got an unexpected keyword argument visitor_hash"

/-- C10: the middleware's `record_pageview` call passes keyword arguments
`visitor_hash` and `ip_address`, which the signature does not accept, so the
binding raises `TypeError` on every tracked request; the tracking step always
fails, and `dispatch` writes no pageview or session row and still returns the
inner response. -/
theorem c10_middleware_call_type_error :
    kwargBindError record_pageview_params middleware_call_kwargs =
      some typeErrorMsg ∧
    (∀ (req : RequestInfo) (inner : Response)
      (geoResult : Except String (Option GeoInfo))
      (hashVisitor : String → String) (rt now : Int) (st : Storage),
      trackStep req inner geoResult hashVisitor rt now st =
        .error typeErrorMsg) ∧
    (∀ (req : RequestInfo) (inner : Response)
      (geoResult : Except String (Option GeoInfo))
      (hashVisitor : String → String) (rt now : Int) (st : Storage),
      dispatch req inner geoResult hashVisitor rt now st = (inner, st)) := by
  have hk : kwargBindError record_pageview_params middleware_call_kwargs =
      some typeErrorMsg := by decide
  have htrack : ∀ (req : RequestInfo) (inner : Response)
      (geoResult : Except String (Option GeoInfo))
      (hashVisitor : String → String) (rt now : Int) (st : Storage),
      trackStep req inner geoResult hashVisitor rt now st =
        .error typeErrorMsg := by
    intro req inner geoResult hashVisitor rt now st
    simp only [trackStep, hk]
  refine ⟨hk, htrack, ?_⟩
  intro req inner geoResult hashVisitor rt now st
  by_cases h : _should_track req = true
  · simp [dispatch, h, htrack]
  · have h2 : _should_track req = false := Bool.eq_false_iff.mpr h
    simp [dispatch, h2]

/-- C8: any exception raised inside the tracking block (request-info
extraction, geolocation, or the storage write) is caught by `dispatch`, which
still returns the inner handler's response, with the analytics state as it
was; the response is returned unchanged in every case. -/
theorem c8_dispatch_absorbs_failures :
    (∀ (req : RequestInfo) (inner : Response)
      (geoResult : Except String (Option GeoInfo))
      (hashVisitor : String → String) (rt now : Int) (st : Storage),
      (dispatch req inner geoResult hashVisitor rt now st).1 = inner) ∧
    (∀ (req : RequestInfo) (inner : Response)
      (geoResult : Except String (Option GeoInfo))
      (hashVisitor : String → String) (rt now : Int) (st : Storage)
      (e : String),
      trackStep req inner geoResult hashVisitor rt now st = .error e →
      dispatch req inner geoResult hashVisitor rt now st = (inner, st)) := by
  constructor
  · intro req inner geoResult hashVisitor rt now st
    by_cases h : _should_track req = true
    · simp only [dispatch, h, Bool.not_true, Bool.false_eq_true, if_false]
      cases trackStep req inner geoResult hashVisitor rt now st <;> rfl
    · have h2 : _should_track req = false := Bool.eq_false_iff.mpr h
      simp [dispatch, h2]
  · intro req inner geoResult hashVisitor rt now st e he
    by_cases h : _should_track req = true
    · simp [dispatch, h, he]
    · have h2 : _should_track req = false := Bool.eq_false_iff.mpr h
      simp [dispatch, h2]

/-- The concrete tracked request of the C8 witness. -/
def c8Req : RequestInfo := { method := "GET", path := "/" }

/-- Witness for C8: a concrete tracked request whose geolocation lookup fails
and whose storage write raises (the keyword-binding `TypeError`); the
response passes through unchanged. -/
theorem c8_dispatch_absorbs_failures_witness :
    trackStep c8Req { status_code := 200 } (.error "timeout") (fun _ => "h")
      5 0 emptyStorage = .error typeErrorMsg ∧
    dispatch c8Req { status_code := 200 } (.error "timeout") (fun _ => "h")
      5 0 emptyStorage = ({ status_code := 200 }, emptyStorage) := by
  have hk : kwargBindError record_pageview_params middleware_call_kwargs =
      some typeErrorMsg := by decide
  have ht : trackStep c8Req { status_code := 200 } (.error "timeout")
      (fun _ => "h") 5 0 emptyStorage = .error typeErrorMsg := by
    simp only [trackStep, hk]
  exact ⟨ht, c8_dispatch_absorbs_failures.2 _ _ _ _ _ _ _ _ ht⟩

/-! ## storage.py : brute-force guard (`login_attempts` table) -/

/-- One row of the `login_attempts` table. -/
structure LoginAttempt where
  ip_address : String
  timestamp : Int
  success : Bool
deriving DecidableEq

/-- The WHERE clause `ip_address = ? AND timestamp > ? AND success = 0`
shared by `is_ip_locked_out` and `get_remaining_attempts`. -/
def recentFailed (ip : String) (cutoff : Int) (l : List LoginAttempt) :
    List LoginAttempt :=
  l.filter (fun a => a.ip_address == ip && decide (cutoff < a.timestamp) &&
    !a.success)

/-- `MAX(timestamp)` over a list of rows (`NULL`, i.e. `none`, when empty;
on ISO strings the SQL `MAX` is the chronological maximum). -/
def maxTime : List LoginAttempt → Option Int
  | [] => none
  | a :: rest =>
    match maxTime rest with
    | none => some a.timestamp
    | some t => some (max a.timestamp t)

/-- `AnalyticsStorage.is_ip_locked_out(ip, max_attempts=5, lockout_minutes=15)`.
Counts failed attempts in the trailing window; at or above the threshold the
remaining seconds are `lockout_minutes` past the most recent failed attempt,
minus now, floored at zero.  The result is `none` on the path where Python
would raise (`fromisoformat(None)` when the threshold is met with no rows,
possible only for `max_attempts = 0`). -/
def is_ip_locked_out (ip : String) (max_attempts : Int) (lockout_minutes : Int)
    (now : Int) (l : List LoginAttempt) : Option (Bool × Int) :=
  let cutoff := now - lockout_minutes * 60
  let failed := recentFailed ip cutoff l
  if (failed.length : Int) ≥ max_attempts then
    match maxTime failed with
    | some last_attempt =>
      some (true, max 0 (last_attempt + lockout_minutes * 60 - now))
    | none => none
  else
    some (false, 0)

/-- `AnalyticsStorage.get_remaining_attempts(ip, max_attempts=5,
lockout_minutes=15)`: `max(0, max_attempts - recent_failures)`. -/
def get_remaining_attempts (ip : String) (max_attempts : Int)
    (lockout_minutes : Int) (now : Int) (l : List LoginAttempt) : Int :=
  let cutoff := now - lockout_minutes * 60
  max 0 (max_attempts - (recentFailed ip cutoff l).length)

theorem maxTime_eq_none : ∀ l : List LoginAttempt, maxTime l = none ↔ l = []
  | [] => by simp [maxTime]
  | a :: rest => by
    simp only [maxTime]
    cases maxTime rest <;> simp

theorem maxTime_mem : ∀ (l : List LoginAttempt) (t : Int),
    maxTime l = some t → ∃ a ∈ l, a.timestamp = t := by
  intro l
  induction l with
  | nil => intro t h; cases h
  | cons a rest ih =>
    intro t h
    simp only [maxTime] at h
    cases hm : maxTime rest with
    | none =>
      rw [hm] at h
      exact ⟨a, List.mem_cons_self a rest, Option.some.inj h⟩
    | some m =>
      rw [hm] at h
      have hmax : max a.timestamp m = t := Option.some.inj h
      rcases max_choice a.timestamp m with hc | hc
      · exact ⟨a, List.mem_cons_self a rest, by omega⟩
      · obtain ⟨b, hb, hbt⟩ := ih m hm
        exact ⟨b, List.mem_cons_of_mem a hb, by omega⟩

theorem maxTime_ge : ∀ (l : List LoginAttempt) (t : Int) (a : LoginAttempt),
    maxTime l = some t → a ∈ l → a.timestamp ≤ t := by
  intro l
  induction l with
  | nil => intro t a _ ha; cases ha
  | cons b rest ih =>
    intro t a h ha
    simp only [maxTime] at h
    cases hm : maxTime rest with
    | none =>
      have hrest : rest = [] := (maxTime_eq_none rest).mp hm
      subst hrest
      rw [hm] at h
      have hbt : b.timestamp = t := Option.some.inj h
      rcases List.mem_cons.mp ha with h2 | h2
      · rw [h2]; omega
      · cases h2
    | some m =>
      rw [hm] at h
      have hmax : max b.timestamp m = t := Option.some.inj h
      rcases List.mem_cons.mp ha with h2 | h2
      · rw [h2]; omega
      · have := ih m a hm h2
        omega

theorem maxTime_isSome_of_ne_nil (l : List LoginAttempt) (h : l ≠ []) :
    ∃ t, maxTime l = some t := by
  cases l with
  | nil => exact absurd rfl h
  | cons a rest =>
    simp only [maxTime]
    cases maxTime rest with
    | none => exact ⟨a.timestamp, rfl⟩
    | some m => exact ⟨max a.timestamp m, rfl⟩

/-- C5: with the default parameters (threshold 5, window 15 minutes), an
origin with at least 5 failed attempts in the trailing 15 minutes is locked
out, and the remaining seconds equal the time until 15 minutes past the most
recent failed attempt in the window, floored at zero, hence between 0 and
900; with fewer than 5 recent failures the origin is not locked out and the
remaining time is 0; and the remaining-attempts query returns
`max(0, 5 - recent_failures)`. -/
theorem c5_brute_force_guard (ip : String) (now : Int) (l : List LoginAttempt)
    (hpast : ∀ a ∈ l, a.timestamp ≤ now) :
    (((recentFailed ip (now - 900) l).length : Int) ≥ 5 →
      ∃ r last : Int, maxTime (recentFailed ip (now - 900) l) = some last ∧
        is_ip_locked_out ip 5 15 now l = some (true, r) ∧
        r = max 0 (last + 900 - now) ∧ 0 ≤ r ∧ r ≤ 900) ∧
    (((recentFailed ip (now - 900) l).length : Int) < 5 →
      is_ip_locked_out ip 5 15 now l = some (false, 0)) ∧
    get_remaining_attempts ip 5 15 now l =
      max 0 (5 - ((recentFailed ip (now - 900) l).length : Int)) := by
  have hcut : now - 15 * 60 = now - 900 := by norm_num
  refine ⟨?_, ?_, ?_⟩
  · intro hge
    have hne : recentFailed ip (now - 900) l ≠ [] := by
      intro hnil
      rw [hnil] at hge
      simp at hge
    obtain ⟨last, hlast⟩ := maxTime_isSome_of_ne_nil _ hne
    refine ⟨max 0 (last + 900 - now), last, hlast, ?_, rfl, ?_, ?_⟩
    · simp only [is_ip_locked_out, hcut]
      rw [if_pos hge, hlast]
      norm_num
    · exact le_max_left 0 _
    · obtain ⟨a, ha, hat⟩ := maxTime_mem _ last hlast
      have hmem : a ∈ l := List.mem_of_mem_filter ha
      have := hpast a hmem
      omega
  · intro hlt
    simp only [is_ip_locked_out, hcut]
    rw [if_neg (by omega)]
  · simp only [get_remaining_attempts, hcut]

/-- Witness for C5: five failed attempts from `1.2.3.4` at seconds
200..600, evaluated at `now = 1000` (window cutoff 100); lockout is active
with 500 seconds remaining. -/
theorem c5_brute_force_guard_witness :
    (∀ a ∈ [(⟨"1.2.3.4", 200, false⟩ : LoginAttempt), ⟨"1.2.3.4", 300, false⟩,
            ⟨"1.2.3.4", 400, false⟩, ⟨"1.2.3.4", 500, false⟩,
            ⟨"1.2.3.4", 600, false⟩], a.timestamp ≤ 1000) ∧
    ((recentFailed "1.2.3.4" (1000 - 900)
        [(⟨"1.2.3.4", 200, false⟩ : LoginAttempt), ⟨"1.2.3.4", 300, false⟩,
         ⟨"1.2.3.4", 400, false⟩, ⟨"1.2.3.4", 500, false⟩,
         ⟨"1.2.3.4", 600, false⟩]).length : Int) ≥ 5 ∧
    (∃ r last : Int,
      maxTime (recentFailed "1.2.3.4" (1000 - 900)
        [(⟨"1.2.3.4", 200, false⟩ : LoginAttempt), ⟨"1.2.3.4", 300, false⟩,
         ⟨"1.2.3.4", 400, false⟩, ⟨"1.2.3.4", 500, false⟩,
         ⟨"1.2.3.4", 600, false⟩]) = some last ∧
      is_ip_locked_out "1.2.3.4" 5 15 1000
        [(⟨"1.2.3.4", 200, false⟩ : LoginAttempt), ⟨"1.2.3.4", 300, false⟩,
         ⟨"1.2.3.4", 400, false⟩, ⟨"1.2.3.4", 500, false⟩,
         ⟨"1.2.3.4", 600, false⟩] = some (true, r) ∧
      r = max 0 (last + 900 - 1000) ∧ 0 ≤ r ∧ r ≤ 900) := by
  refine ⟨by decide, by decide, ?_⟩
  have h := c5_brute_force_guard "1.2.3.4" 1000
    [(⟨"1.2.3.4", 200, false⟩ : LoginAttempt), ⟨"1.2.3.4", 300, false⟩,
     ⟨"1.2.3.4", 400, false⟩, ⟨"1.2.3.4", 500, false⟩,
     ⟨"1.2.3.4", 600, false⟩] (by decide)
  exact h.1 (by decide)

/-! ## storage.py : admin session manager (`admin_sessions` table) -/

/-- One row of the `admin_sessions` table. -/
structure AdminSessionRow where
  session_id : String
  created_at : Int
  expires_at : Int
deriving DecidableEq

/-- The WHERE clause `session_id = ? AND expires_at > ?` of
`validate_admin_session`. -/
def adminRowMatches (session_id : String) (now : Int)
    (r : AdminSessionRow) : Bool :=
  r.session_id == session_id && decide (now < r.expires_at)

/-- `AnalyticsStorage.validate_admin_session(session_id)`: a falsy (empty)
token returns `False` immediately; otherwise the row must exist with
`expires_at > now`.  The body is a single SELECT. -/
def validate_admin_session (session_id : String) (now : Int)
    (rows : List AdminSessionRow) : Bool :=
  if session_id = "" then false
  else rows.any (adminRowMatches session_id now)

/-- `validate_admin_session` together with the table it leaves behind: the
source performs no write in this method, so the table passes through. -/
def validate_admin_session_run (session_id : String) (now : Int)
    (rows : List AdminSessionRow) : Bool × List AdminSessionRow :=
  (validate_admin_session session_id now rows, rows)

/-- `AnalyticsStorage._cleanup_expired_sessions`:
`DELETE FROM admin_sessions WHERE expires_at < ?`. -/
def cleanup_expired_sessions (now : Int) (rows : List AdminSessionRow) :
    List AdminSessionRow :=
  rows.filter (fun r => !(decide (r.expires_at < now)))

/-- `AnalyticsStorage.create_admin_session(session_id, expires_hours=24)`:
insert a row expiring `expires_hours` later, then purge expired rows. -/
def create_admin_session (session_id : String) (expires_hours : Int)
    (now : Int) (rows : List AdminSessionRow) : List AdminSessionRow :=
  cleanup_expired_sessions now
    (rows ++ [{ session_id := session_id, created_at := now,
                expires_at := now + expires_hours * 3600 }])

/-- `AnalyticsStorage.delete_admin_session(session_id)`. -/
def delete_admin_session (session_id : String)
    (rows : List AdminSessionRow) : List AdminSessionRow :=
  rows.filter (fun r => !(r.session_id == session_id))

/-- C6: for an admin session token (nonempty, as all tokens issued through the
admin login flow are), validation before the stored `expires_at` returns true
at every call and leaves the table — hence the row and its expiry — unchanged,
and validation at or after `expires_at` returns false.  Uniqueness of the row
for the token reflects the UNIQUE constraint on `session_id`. -/
theorem c6_validate_admin_session_idempotent (sid : String)
    (rows : List AdminSessionRow) (row : AdminSessionRow)
    (hne : sid ≠ "") (hmem : row ∈ rows) (hsid : row.session_id = sid)
    (huniq : ∀ r ∈ rows, r.session_id = sid → r = row) :
    (∀ now : Int, now < row.expires_at →
      validate_admin_session_run sid now rows = (true, rows)) ∧
    (∀ now : Int, now < row.expires_at →
      validate_admin_session_run sid now
        (validate_admin_session_run sid now rows).2 =
      validate_admin_session_run sid now rows) ∧
    (∀ later : Int, row.expires_at ≤ later →
      validate_admin_session_run sid later rows = (false, rows)) := by
  refine ⟨?_, ?_, ?_⟩
  · intro now hnow
    simp only [validate_admin_session_run, validate_admin_session, if_neg hne]
    have : rows.any (adminRowMatches sid now) = true := by
      refine List.any_eq_true.mpr ⟨row, hmem, ?_⟩
      simp [adminRowMatches, hsid, hnow]
    rw [this]
  · intro now _
    rfl
  · intro later hlater
    simp only [validate_admin_session_run, validate_admin_session, if_neg hne]
    have hfalse : rows.any (adminRowMatches sid later) = false := by
      rw [List.any_eq_false]
      intro r hr hcontra
      simp only [adminRowMatches, Bool.and_eq_true, beq_iff_eq,
        decide_eq_true_eq] at hcontra
      obtain ⟨hc1, hc2⟩ := hcontra
      have heq := huniq r hr hc1
      subst heq
      omega
    rw [hfalse]

/-- Witness for C6: one stored row for token `tok` expiring at 100; validation
at 50 returns true and leaves the table unchanged, repeating it is stable,
and validation at 100 returns false. -/
theorem c6_validate_admin_session_idempotent_witness :
    validate_admin_session_run "tok" 50 [⟨"tok", 0, 100⟩] =
      (true, [⟨"tok", 0, 100⟩]) ∧
    validate_admin_session_run "tok" 50
      (validate_admin_session_run "tok" 50 [⟨"tok", 0, 100⟩]).2 =
      validate_admin_session_run "tok" 50 [⟨"tok", 0, 100⟩] ∧
    validate_admin_session_run "tok" 100 [⟨"tok", 0, 100⟩] =
      (false, [⟨"tok", 0, 100⟩]) := by
  have h := c6_validate_admin_session_idempotent "tok" [⟨"tok", 0, 100⟩]
    ⟨"tok", 0, 100⟩ (by decide) (List.mem_singleton.mpr rfl) rfl
    (fun r hr _ => List.mem_singleton.mp hr)
  exact ⟨h.1 50 (by decide), h.2.1 50 (by decide), h.2.2 100 (by decide)⟩

/-! ## storage.py : `get_stats` (aggregate query engine)

Each panel is one SQL statement over the tables.  `GROUP BY k` with
`COUNT(*)` becomes `groupCounts`; `ORDER BY count DESC LIMIT n` becomes an
insertion sort descending by count followed by `take n` (SQLite leaves the
order of equal counts unspecified; the sort here is stable).  `DATE(ts)`
becomes the UTC day index `dayOf`. -/

/-- Append a key if it has not been seen (first-occurrence order). -/
def addDistinct {α : Type} [DecidableEq α] (acc : List α) (x : α) : List α :=
  if x ∈ acc then acc else acc ++ [x]

/-- The distinct values of a list, in first-occurrence order. -/
def distinctList {α : Type} [DecidableEq α] (l : List α) : List α :=
  l.foldl addDistinct []

/-- `COUNT(DISTINCT f x)`. -/
def countDistinct {α β : Type} [DecidableEq α] (f : β → α) (l : List β) : Nat :=
  (distinctList (l.map f)).length

/-- `SELECT f, COUNT(*) ... GROUP BY f`. -/
def groupCounts {α β : Type} [DecidableEq α] [DecidableEq β] (f : β → α)
    (l : List β) : List (α × Nat) :=
  (distinctList (l.map f)).map
    (fun k => (k, (l.filter (fun r => decide (f r = k))).length))

/-- Insert into a list sorted descending by count (stable). -/
def insertByCount {α : Type} (x : α × Nat) : List (α × Nat) → List (α × Nat)
  | [] => [x]
  | y :: rest => if y.2 < x.2 then x :: y :: rest else y :: insertByCount x rest

/-- `ORDER BY count DESC` (stable insertion sort). -/
def sortCountDesc {α : Type} (l : List (α × Nat)) : List (α × Nat) :=
  l.foldr insertByCount []

/-- `GROUP BY f ORDER BY COUNT(*) DESC LIMIT n`. -/
def topCounts {α β : Type} [DecidableEq α] [DecidableEq β] (n : Nat)
    (f : β → α) (l : List β) : List (α × Nat) :=
  (sortCountDesc (groupCounts f l)).take n

/-- Insert into a list sorted ascending by the integer key. -/
def insertByKeyAsc (x : Int × Nat) : List (Int × Nat) → List (Int × Nat)
  | [] => [x]
  | y :: rest => if x.1 < y.1 then x :: y :: rest else y :: insertByKeyAsc x rest

/-- `ORDER BY date` ascending. -/
def sortKeyAsc (l : List (Int × Nat)) : List (Int × Nat) :=
  l.foldr insertByKeyAsc []

/-- `DATE(timestamp)`: the UTC day index of an integer-second timestamp. -/
def dayOf (t : Int) : Int := t / 86400

/-- The `get_stats` snapshot (`stats` dict), one field per panel.
`avg_pages_per_session` is the exact rational mean (SQLite computes a float
and Python rounds it to one decimal for display; the claims do not touch this
field). -/
structure StatsSnapshot where
  total_pageviews : Nat
  unique_visitors : Nat
  total_sessions : Nat
  avg_pages_per_session : Rat
  top_pages : List (String × Nat)
  top_referrers : List (Option String × Nat)
  referrer_urls : List (Option String × Nat)
  browsers : List (Option String × Nat)
  operating_systems : List (Option String × Nat)
  device_types : List (Option String × Nat)
  countries : List (Option String × Nat)
  cities : List ((Option String × Option String) × Nat)
  pageviews_over_time : List (Int × Nat)
  visitors_over_time : List (Int × Nat)
  events : List (String × Nat)
  utm_sources : List (Option String × Nat)
  utm_campaigns : List ((Option String × Option String) × Nat)
  bot_requests : Nat
  live_visitors : Nat

/-- `AnalyticsStorage.get_stats(days)`: every panel over the trailing window
`timestamp > now - days`, in the order of the source.  `now` is the wall
clock (`datetime.utcnow()`), passed explicitly. -/
def get_stats (days : Int) (now : Int) (rows : List PageviewRow)
    (sess : List Session) (evts : List EventRow) : StatsSnapshot :=
  let cutoff := now - days * 86400
  let live_cutoff := now - 5 * 60
  { total_pageviews :=
      (rows.filter (fun r => decide (cutoff < r.timestamp) && !r.is_bot)).length,
    unique_visitors :=
      countDistinct (fun r => r.visitor_id)
        (rows.filter (fun r => decide (cutoff < r.timestamp) && !r.is_bot)),
    total_sessions :=
      (sess.filter (fun s => decide (cutoff < s.started_at))).length,
    avg_pages_per_session :=
      (let l := sess.filter (fun s => decide (cutoff < s.started_at))
       if l.length = 0 then 0
       else ((l.map (fun s => (s.pageviews : Rat))).sum) / (l.length : Rat)),
    top_pages :=
      topCounts 10 (fun r => r.path)
        (rows.filter (fun r => decide (cutoff < r.timestamp) && !r.is_bot)),
    top_referrers :=
      topCounts 10 (fun r => r.referrer_domain)
        (rows.filter (fun r => decide (cutoff < r.timestamp) &&
          r.referrer_domain.isSome && !(r.referrer_domain == some "") &&
          !r.is_bot)),
    referrer_urls :=
      topCounts 20 (fun r => r.referrer)
        (rows.filter (fun r => decide (cutoff < r.timestamp) &&
          r.referrer.isSome && !(r.referrer == some "") && !r.is_bot)),
    browsers :=
      topCounts 10 (fun r => r.browser)
        (rows.filter (fun r => decide (cutoff < r.timestamp) &&
          r.browser.isSome && !r.is_bot)),
    operating_systems :=
      topCounts 10 (fun r => r.os)
        (rows.filter (fun r => decide (cutoff < r.timestamp) &&
          r.os.isSome && !r.is_bot)),
    device_types :=
      sortCountDesc (groupCounts (fun r => r.device_type)
        (rows.filter (fun r => decide (cutoff < r.timestamp) &&
          r.device_type.isSome && !r.is_bot))),
    countries :=
      topCounts 15 (fun r => r.country)
        (rows.filter (fun r => decide (cutoff < r.timestamp) &&
          r.country.isSome && !r.is_bot)),
    cities :=
      topCounts 10 (fun r => (r.city, r.country))
        (rows.filter (fun r => decide (cutoff < r.timestamp) &&
          r.city.isSome && !r.is_bot)),
    pageviews_over_time :=
      sortKeyAsc (groupCounts (fun r => dayOf r.timestamp)
        (rows.filter (fun r => decide (cutoff < r.timestamp) && !r.is_bot))),
    visitors_over_time :=
      (let l := rows.filter (fun r => decide (cutoff < r.timestamp) && !r.is_bot)
       sortKeyAsc ((distinctList (l.map (fun r => dayOf r.timestamp))).map
         (fun d => (d, countDistinct (fun r => r.visitor_id)
           (l.filter (fun r => decide (dayOf r.timestamp = d))))))),
    events :=
      topCounts 20 (fun e => e.event_name)
        (evts.filter (fun e => decide (cutoff < e.timestamp))),
    utm_sources :=
      topCounts 10 (fun r => r.utm_source)
        (rows.filter (fun r => decide (cutoff < r.timestamp) &&
          r.utm_source.isSome && !r.is_bot)),
    utm_campaigns :=
      topCounts 10 (fun r => (r.utm_campaign, r.utm_source))
        (rows.filter (fun r => decide (cutoff < r.timestamp) &&
          r.utm_campaign.isSome && !r.is_bot)),
    bot_requests :=
      (rows.filter (fun r => decide (cutoff < r.timestamp) && r.is_bot)).length,
    live_visitors :=
      countDistinct (fun r => r.visitor_id)
        (rows.filter (fun r => decide (live_cutoff < r.timestamp) &&
          !r.is_bot)) }

/-- The bot-excluded restriction of the pageview table. -/
def delBots (rows : List PageviewRow) : List PageviewRow :=
  rows.filter (fun r => !r.is_bot)

theorem filter_delBots (p : PageviewRow → Bool)
    (hp : ∀ r : PageviewRow, p r = true → r.is_bot = false) :
    ∀ rows : List PageviewRow, (delBots rows).filter p = rows.filter p := by
  intro rows
  induction rows with
  | nil => rfl
  | cons r rest ih =>
    simp only [delBots, List.filter_cons] at ih ⊢
    cases hb : r.is_bot with
    | true =>
      have hpr : p r = false := by
        cases hpr : p r with
        | true => exact absurd (hp r hpr) (by simp [hb])
        | false => rfl
      simp [hb, hpr, ih]
    | false =>
      cases hpr : p r <;> simp [hb, hpr, ih]

theorem filter_delBots_bot_empty (f : PageviewRow → Bool) :
    ∀ rows : List PageviewRow,
      (delBots rows).filter (fun r => f r && r.is_bot) = [] := by
  intro rows
  induction rows with
  | nil => rfl
  | cons r rest ih =>
    simp only [delBots, List.filter_cons] at ih ⊢
    cases hb : r.is_bot <;> simp [hb, ih]

/-- C4: no pageview row with the bot flag set is counted in
`total_pageviews`, `unique_visitors`, `live_visitors`, or any
pageview-derived breakdown panel of `get_stats` — restricting the pageview
table to its bot-free rows changes nothing in the snapshot except
`bot_requests`, which becomes 0; and `bot_requests` counts exactly the
in-window rows with `is_bot = 1`. -/
theorem c4_get_stats_bot_exclusion (days now : Int) (rows : List PageviewRow)
    (sess : List Session) (evts : List EventRow) :
    get_stats days now (delBots rows) sess evts =
      { get_stats days now rows sess evts with bot_requests := 0 } ∧
    (get_stats days now rows sess evts).bot_requests =
      (rows.filter (fun r => decide (now - days * 86400 < r.timestamp) &&
        r.is_bot)).length := by
  have e1 : (delBots rows).filter
      (fun r => decide (now - days * 86400 < r.timestamp) && !r.is_bot) =
      rows.filter
      (fun r => decide (now - days * 86400 < r.timestamp) && !r.is_bot) :=
    filter_delBots _ (by
      intro r h
      rcases Bool.eq_false_or_eq_true r.is_bot with hb | hb
      · rw [hb] at h
        simp at h
      · exact hb) rows
  have e2 : (delBots rows).filter
      (fun r => decide (now - days * 86400 < r.timestamp) &&
        r.referrer_domain.isSome && !(r.referrer_domain == some "") &&
        !r.is_bot) =
      rows.filter
      (fun r => decide (now - days * 86400 < r.timestamp) &&
        r.referrer_domain.isSome && !(r.referrer_domain == some "") &&
        !r.is_bot) :=
    filter_delBots _ (by
      intro r h
      rcases Bool.eq_false_or_eq_true r.is_bot with hb | hb
      · rw [hb] at h
        simp at h
      · exact hb) rows
  have e3 : (delBots rows).filter
      (fun r => decide (now - days * 86400 < r.timestamp) &&
        r.referrer.isSome && !(r.referrer == some "") && !r.is_bot) =
      rows.filter
      (fun r => decide (now - days * 86400 < r.timestamp) &&
        r.referrer.isSome && !(r.referrer == some "") && !r.is_bot) :=
    filter_delBots _ (by
      intro r h
      rcases Bool.eq_false_or_eq_true r.is_bot with hb | hb
      · rw [hb] at h
        simp at h
      · exact hb) rows
  have e4 : (delBots rows).filter
      (fun r => decide (now - days * 86400 < r.timestamp) &&
        r.browser.isSome && !r.is_bot) =
      rows.filter
      (fun r => decide (now - days * 86400 < r.timestamp) &&
        r.browser.isSome && !r.is_bot) :=
    filter_delBots _ (by
      intro r h
      rcases Bool.eq_false_or_eq_true r.is_bot with hb | hb
      · rw [hb] at h
        simp at h
      · exact hb) rows
  have e5 : (delBots rows).filter
      (fun r => decide (now - days * 86400 < r.timestamp) &&
        r.os.isSome && !r.is_bot) =
      rows.filter
      (fun r => decide (now - days * 86400 < r.timestamp) &&
        r.os.isSome && !r.is_bot) :=
    filter_delBots _ (by
      intro r h
      rcases Bool.eq_false_or_eq_true r.is_bot with hb | hb
      · rw [hb] at h
        simp at h
      · exact hb) rows
  have e6 : (delBots rows).filter
      (fun r => decide (now - days * 86400 < r.timestamp) &&
        r.device_type.isSome && !r.is_bot) =
      rows.filter
      (fun r => decide (now - days * 86400 < r.timestamp) &&
        r.device_type.isSome && !r.is_bot) :=
    filter_delBots _ (by
      intro r h
      rcases Bool.eq_false_or_eq_true r.is_bot with hb | hb
      · rw [hb] at h
        simp at h
      · exact hb) rows
  have e7 : (delBots rows).filter
      (fun r => decide (now - days * 86400 < r.timestamp) &&
        r.country.isSome && !r.is_bot) =
      rows.filter
      (fun r => decide (now - days * 86400 < r.timestamp) &&
        r.country.isSome && !r.is_bot) :=
    filter_delBots _ (by
      intro r h
      rcases Bool.eq_false_or_eq_true r.is_bot with hb | hb
      · rw [hb] at h
        simp at h
      · exact hb) rows
  have e8 : (delBots rows).filter
      (fun r => decide (now - days * 86400 < r.timestamp) &&
        r.city.isSome && !r.is_bot) =
      rows.filter
      (fun r => decide (now - days * 86400 < r.timestamp) &&
        r.city.isSome && !r.is_bot) :=
    filter_delBots _ (by
      intro r h
      rcases Bool.eq_false_or_eq_true r.is_bot with hb | hb
      · rw [hb] at h
        simp at h
      · exact hb) rows
  have e9 : (delBots rows).filter
      (fun r => decide (now - days * 86400 < r.timestamp) &&
        r.utm_source.isSome && !r.is_bot) =
      rows.filter
      (fun r => decide (now - days * 86400 < r.timestamp) &&
        r.utm_source.isSome && !r.is_bot) :=
    filter_delBots _ (by
      intro r h
      rcases Bool.eq_false_or_eq_true r.is_bot with hb | hb
      · rw [hb] at h
        simp at h
      · exact hb) rows
  have e10 : (delBots rows).filter
      (fun r => decide (now - days * 86400 < r.timestamp) &&
        r.utm_campaign.isSome && !r.is_bot) =
      rows.filter
      (fun r => decide (now - days * 86400 < r.timestamp) &&
        r.utm_campaign.isSome && !r.is_bot) :=
    filter_delBots _ (by
      intro r h
      rcases Bool.eq_false_or_eq_true r.is_bot with hb | hb
      · rw [hb] at h
        simp at h
      · exact hb) rows
  have e11 : (delBots rows).filter
      (fun r => decide (now - 5 * 60 < r.timestamp) && !r.is_bot) =
      rows.filter
      (fun r => decide (now - 5 * 60 < r.timestamp) && !r.is_bot) :=
    filter_delBots _ (by
      intro r h
      rcases Bool.eq_false_or_eq_true r.is_bot with hb | hb
      · rw [hb] at h
        simp at h
      · exact hb) rows
  have e12 : (delBots rows).filter
      (fun r => decide (now - days * 86400 < r.timestamp) && r.is_bot) = [] :=
    filter_delBots_bot_empty _ rows
  constructor
  · simp only [get_stats, e1, e2, e3, e4, e5, e6, e7, e8, e9, e10, e11, e12,
      List.length_nil]
  · simp only [get_stats]

end Neverdecel
